import Mathlib

/-!
Shallow embedding of the AptosBB fork-and-execute harness (src/src/lib.rs).

The harness (`AptosBB`) wraps an abstract execution engine, a per-address
sequence-number ledger, and a pinned chain id.  External collaborators
(the `FakeExecutor` engine, key-derivation routines, the package build
toolchain, identifier parsing) are out of the repository's scope and are
modelled as an abstract environment `Env σ` over an opaque engine-state
type `σ`: the harness's own control flow and state updates are translated
line by line from the source.
-/

/-- Account addresses (fixed-length byte identifiers in the source). -/
abbrev Addr := Nat

/-- Raw byte strings. -/
abbrev Bytes := List Nat

/-- Opaque state-store key (aptos_types StateKey). -/
abbrev StateKey := Nat

/-- Opaque access path (aptos_types AccessPath). -/
abbrev AccessPath := Nat

/-- Opaque struct tag (move_core_types StructTag). -/
abbrev StructTag := Nat

/-- Opaque type tag (move_core_types TypeTag). -/
abbrev TypeTag := Nat

/-- Opaque parsed member id (aptos_types MemberId). -/
abbrev MemberId := Nat

/-- Opaque deserialized account resource (only its presence matters to the
harness). -/
abbrev AccountResource := Nat

/-- Chain identifier (small integer). -/
abbrev ChainId := Nat

/-- An account: the harness only ever consults its address; key material is
irrelevant to the modelled control flow. -/
structure Account where
  addr : Addr
deriving DecidableEq

/-- Modelled from move_core_types: a syntactically validated identifier. -/
structure Identifier where
  name : String
deriving DecidableEq

/-- A module id: address plus module-name identifier. -/
structure ModuleId where
  address : Addr
  name : Identifier
deriving DecidableEq

/-- Transaction payloads built by the harness: entry-function calls and
module-publish payloads (the latter produced by
aptos_stdlib::code_publish_package_txn from metadata bytes and code). -/
inductive TransactionPayload where
  | EntryFunction (module_id : ModuleId) (function : Identifier)
      (ty_args : List TypeTag) (args : List Bytes)
  | CodePublish (metadata : Bytes) (code : List Bytes)
deriving DecidableEq

/-- Execution status of a kept transaction (the variants the harness
mentions; engine-produced statuses are arbitrary values of this type). -/
inductive ExecutionStatus where
  | Success
  | MiscellaneousError (code : Option Nat)
  | MoveAbort (code : Nat)
deriving DecidableEq

/-- Transaction status: kept (with an execution status), discarded with a
status code, or retry. -/
inductive TransactionStatus where
  | Keep (status : ExecutionStatus)
  | Discard (code : Nat)
  | Retry
deriving DecidableEq

/-- The numeric value of aptos vm_status StatusCode::ABORTED, used by
publish_package's synthetic failure status. -/
def ABORTED : Nat := 4016

/-- A signed transaction as assembled by the harness's builder chain
(account.transaction().payload(..).sequence_number(..).max_gas_amount(..)
.gas_unit_price(..).ttl(..).chain_id(..).sign()). -/
structure SignedTransaction where
  sender : Addr
  payload : TransactionPayload
  sequence_number : Nat
  max_gas_amount : Nat
  gas_unit_price : Nat
  expiration_timestamp_secs : Nat
  chain_id : ChainId
deriving DecidableEq

/-- Engine transaction output: the harness only reads its status; the rest
(write set, events, gas) is collapsed to a residual field. -/
structure TransactionOutput where
  status : TransactionStatus
  gas_used : Nat
deriving DecidableEq

/-- The fungible-store resource; the harness only reads its balance. -/
structure FungibleStoreResource where
  balance : Nat
deriving DecidableEq

/-- A built package: extracted code and (fallible) extracted metadata.
extract_metadata returns a Result in the source; the harness unwraps it
with expect, so absence models that panic path. -/
structure BuiltPackage where
  code : List Bytes
  metadata : Option Bytes
deriving DecidableEq

/-- External collaborators of the harness, over an opaque engine-state
type σ: the execution engine (FakeExecutor), state-key derivation, bcs,
identifier parsing, and the package build toolchain.  The harness treats
every one of these as a capability; their internals are out of scope. -/
structure Env (σ : Type) where
  executeAndApply : σ → SignedTransaction → σ × TransactionOutput
  readStateValue : σ → StateKey → Option Bytes
  readAccountResource : σ → Addr → Option AccountResource
  readResourceFromGroup : σ → Addr → StructTag → Option FungibleStoreResource
  newAccountData : σ → Addr → σ × Account
  blockTime : σ → Nat
  stateKeyResource : Addr → StructTag → Except Unit StateKey
  resourceAccessPath : Addr → StructTag → Except Unit AccessPath
  bcsToBytes : AccessPath → Bytes
  stateKeyDecode : Bytes → Except Unit StateKey
  parseMemberId : String → Except String MemberId
  executeViewFunction : σ → MemberId → List TypeTag → List Bytes →
      Except String (List Bytes)
  buildPackage : String → Except String BuiltPackage
  primaryAptStore : Addr → Addr
  objectGroupStructTag : StructTag

/-- The sequence-number ledger: HashMap<AccountAddress, u64> modelled as an
association list where insertion shadows earlier entries. -/
abbrev SeqMap := List (Addr × Nat)

/-- HashMap::get. -/
def seqGet : SeqMap → Addr → Option Nat
  | [], _ => none
  | (k, v) :: rest, a => if k = a then some v else seqGet rest a

/-- HashMap::insert (the new binding shadows any earlier one). -/
def seqInsert (m : SeqMap) (a : Addr) (v : Nat) : SeqMap := (a, v) :: m

/-- The harness state: engine state, sequence-number ledger, pinned chain
id (struct AptosBB in the source). -/
structure AptosBB (σ : Type) where
  executor : σ
  sequence_numbers : SeqMap
  chain_id : ChainId

/-- The signed transaction assembled by run_transaction_with_output
(lib.rs lines 181 to 194): ttl is wall-clock `now` plus 300 seconds, gas
budget and unit price are the fixed constants, chain id comes from the
harness. -/
def build_signed_transaction (bb : AptosBB σ) (account : Account)
    (payload : TransactionPayload) (sequence_number : Nat) (now : Nat) :
    SignedTransaction :=
  let ttl := now + 300
  { sender := account.addr
    payload := payload
    sequence_number := sequence_number
    max_gas_amount := 2000000
    gas_unit_price := 100
    expiration_timestamp_secs := ttl
    chain_id := bb.chain_id }

/-- run_transaction_with_output (lib.rs 172-200): read the ledger counter
(defaulting to 0), store counter + 1 back, build and sign the transaction,
execute it, and return (status, output) plus the updated harness state.
`now` is the wall-clock reading SystemTime::now would produce. -/
def run_transaction_with_output (env : Env σ) (bb : AptosBB σ)
    (account : Account) (payload : TransactionPayload) (now : Nat) :
    (TransactionStatus × TransactionOutput) × AptosBB σ :=
  let sequence_number := (seqGet bb.sequence_numbers account.addr).getD 0
  let seqs := seqInsert bb.sequence_numbers account.addr (sequence_number + 1)
  let txn := build_signed_transaction bb account payload sequence_number now
  let res := env.executeAndApply bb.executor txn
  ((res.2.status, res.2),
    { bb with executor := res.1, sequence_numbers := seqs })

/-- run_transaction (lib.rs 203-210): run_transaction_with_output, status
only. -/
def run_transaction (env : Env σ) (bb : AptosBB σ) (account : Account)
    (payload : TransactionPayload) (now : Nat) :
    TransactionStatus × AptosBB σ :=
  let r := run_transaction_with_output env bb account payload now
  (r.1.1, r.2)

/-- Iterated submissions from a single account: each list element supplies
the payload and the wall-clock reading of one run_transaction_with_output
call. -/
def run_transactions (env : Env σ) (account : Account) :
    AptosBB σ → List (TransactionPayload × Nat) → AptosBB σ
  | bb, [] => bb
  | bb, (p, t) :: rest =>
      run_transactions env account
        (run_transaction_with_output env bb account p t).2 rest

/-- Modelled from move_core_types identifier syntax (the dependency, not
repository code): a character allowed after the first position is an ASCII
letter, a digit, or an underscore. -/
def identAllowedChar (c : Char) : Bool :=
  c.isAlpha || c.isDigit || c = '_'

/-- Modelled from move_core_types identifier syntax: an identifier is an
ASCII letter followed by allowed characters, or an underscore followed by
at least one allowed character. -/
def isValidIdentifier (s : String) : Bool :=
  match s.data with
  | [] => false
  | c :: rest =>
      if c = '_' then !rest.isEmpty && rest.all identAllowedChar
      else c.isAlpha && rest.all identAllowedChar

/-- Modelled from move_core_types: Identifier::new succeeds exactly on
syntactically valid identifiers; the harness unwraps the result, so `none`
here is the panic path of that unwrap. -/
def Identifier.new (s : String) : Option Identifier :=
  if isValidIdentifier s then some ⟨s⟩ else none

/-- run_entry_function (lib.rs 146-169): build the module id and function
identifiers (unwrapping both constructions: `none` models a panic), wrap
them into an entry-function payload, and submit it through
run_transaction. -/
def run_entry_function (env : Env σ) (bb : AptosBB σ) (account : Account)
    (module : Addr) (module_name : String) (function : String)
    (ty_args : List TypeTag) (args : List Bytes) (now : Nat) :
    Option (TransactionStatus × AptosBB σ) :=
  match Identifier.new module_name with
  | none => none
  | some mname =>
      match Identifier.new function with
      | none => none
      | some fname =>
          let module_id := ModuleId.mk module mname
          let payload := TransactionPayload.EntryFunction module_id fname ty_args args
          some (run_transaction env bb account payload now)

/-- generate_module_payload (lib.rs 133-143): extract code and metadata
from the built package and assemble the publish payload;
extract_metadata's Result is unwrapped with expect, so a missing metadata
models that panic. -/
def generate_module_payload (package : BuiltPackage) :
    Option TransactionPayload :=
  let code := package.code
  match package.metadata with
  | none => none
  | some metadata => some (TransactionPayload.CodePublish metadata code)

/-- publish_package (lib.rs 108-130): build the package; on build failure
return the synthetic Keep(MiscellaneousError(Some(ABORTED))) status with
the harness state untouched; otherwise assemble the publish payload and
submit it through run_transaction.  The outer Option models the panic
inside generate_module_payload. -/
def publish_package (env : Env σ) (bb : AptosBB σ) (account : Account)
    (path : String) (now : Nat) :
    Option (TransactionStatus × AptosBB σ) :=
  match env.buildPackage path with
  | .error _ =>
      some (TransactionStatus.Keep
        (ExecutionStatus.MiscellaneousError (some ABORTED)), bb)
  | .ok package =>
      match generate_module_payload package with
      | none => none
      | some payload => some (run_transaction env bb account payload now)

/-- The second key-derivation scheme of exists_resource (lib.rs 235-240):
derive a resource access path, bcs-serialize it, decode it into a state
key, and look that key up; any derivation failure along the way falls
through to false. -/
def exists_resource_access_path (env : Env σ) (bb : AptosBB σ)
    (addr : Addr) (struct_tag : StructTag) : Bool :=
  match env.resourceAccessPath addr struct_tag with
  | .ok path =>
      let key_bytes := env.bcsToBytes path
      match env.stateKeyDecode key_bytes with
      | .ok key => (env.readStateValue bb.executor key).isSome
      | .error _ => false
  | .error _ => false

/-- exists_resource (lib.rs 221-243): try the resource-store state key
first and return true immediately if it resolves a stored value,
otherwise fall through to the access-path-derived scheme. -/
def exists_resource (env : Env σ) (bb : AptosBB σ) (addr : Addr)
    (struct_tag : StructTag) : Bool :=
  match env.stateKeyResource addr struct_tag with
  | .ok state_key =>
      if (env.readStateValue bb.executor state_key).isSome then true
      else exists_resource_access_path env bb addr struct_tag
  | .error _ => exists_resource_access_path env bb addr struct_tag

/-- The first key-derivation scheme of exists_resource in isolation
(lib.rs 229-233), written out to state claim C4: the resource-store state
key resolves a stored value. -/
def scheme_resource_key_resolves (env : Env σ) (bb : AptosBB σ)
    (addr : Addr) (struct_tag : StructTag) : Bool :=
  match env.stateKeyResource addr struct_tag with
  | .ok state_key => (env.readStateValue bb.executor state_key).isSome
  | .error _ => false

/-- read_apt_fungible_store_internal (lib.rs 292-302): grouped-resource
lookup of the primary APT fungible store, projected to its balance. -/
def read_apt_fungible_store_internal (env : Env σ) (bb : AptosBB σ)
    (addr : Addr) : Option Nat :=
  (env.readResourceFromGroup bb.executor (env.primaryAptStore addr)
      env.objectGroupStructTag).map
    (fun c => c.balance)

/-- read_aptos_balance (lib.rs 283-289): return the fungible-store balance
when the single resolution scheme succeeds, else 0. -/
def read_aptos_balance (env : Env σ) (bb : AptosBB σ) (addr : Addr) : Nat :=
  match read_apt_fungible_store_internal env bb addr with
  | some balance => balance
  | none => 0

/-- get_apt_balance (lib.rs 318-325): Some of the resolved balance when it
is positive, None otherwise. -/
def get_apt_balance (env : Env σ) (bb : AptosBB σ) (address : Addr) :
    Option Nat :=
  let balance := read_aptos_balance env bb address
  if balance > 0 then some balance else none

/-- The function-id string formatted by execute_view_function
(lib.rs 256). -/
def format_function_id (module : Addr) (module_name : String)
    (function : String) : String :=
  toString module ++ "::" ++ module_name ++ "::" ++ function

/-- execute_view_function (lib.rs 246-266): parse the fully-qualified
function id, mapping a parse failure to a descriptive error; run the
engine's view path and map an engine-reported failure to a descriptive
error, returning the raw result byte-strings on success. -/
def execute_view_function (env : Env σ) (bb : AptosBB σ) (module : Addr)
    (module_name : String) (function : String) (ty_args : List TypeTag)
    (args : List Bytes) : Except String (List Bytes) :=
  let function_id := format_function_id module module_name function
  match env.parseMemberId function_id with
  | .error e => .error ("Failed to parse function ID: " ++ e)
  | .ok member_id =>
      match env.executeViewFunction bb.executor member_id ty_args args with
      | .ok results => .ok results
      | .error e => .error ("View function execution failed: " ++ e)

/-- read_account_resource_at_address (lib.rs 270-275). -/
def read_account_resource_at_address (env : Env σ) (bb : AptosBB σ)
    (addr : Addr) : Option AccountResource :=
  env.readAccountResource bb.executor addr

/-- new_account (lib.rs 82-92): create account data in the engine at the
freshly generated address (`fresh_addr` stands for the address
Account::new() drew), then unconditionally seed the ledger entry for the
returned account's address with 0; the follow-up resource read only
prints. -/
def new_account (env : Env σ) (bb : AptosBB σ) (fresh_addr : Addr) :
    Account × AptosBB σ :=
  let r := env.newAccountData bb.executor fresh_addr
  let executor_account := r.2
  let seqs := seqInsert bb.sequence_numbers executor_account.addr 0
  (executor_account, { bb with executor := r.1, sequence_numbers := seqs })

/-- new_account_at (lib.rs 95-105): create account data in the engine at
the given address, then seed the ledger entry with 0 only when the
follow-up account-resource read (against the post-creation engine state)
succeeds; otherwise only warn and leave the ledger untouched. -/
def new_account_at (env : Env σ) (bb : AptosBB σ) (addr : Addr) :
    Account × AptosBB σ :=
  let r := env.newAccountData bb.executor addr
  let bb1 : AptosBB σ := { bb with executor := r.1 }
  match read_account_resource_at_address env bb1 addr with
  | some _ =>
      (r.2, { bb1 with sequence_numbers := seqInsert bb1.sequence_numbers addr 0 })
  | none => (r.2, bb1)

/-- Looking up the key just inserted yields the inserted value (the
HashMap::insert/get round trip used by the ledger updates). -/
theorem seqGet_seqInsert_self (m : SeqMap) (a v : Nat) :
    seqGet (seqInsert m a v) a = some v := by
  simp [seqInsert, seqGet]

/-- The ledger after one run_transaction_with_output call: the caller's
entry is shadowed with old-counter-plus-one; the rest of the harness state
update does not touch the ledger. -/
theorem run_transaction_with_output_seq (env : Env σ) (bb : AptosBB σ)
    (account : Account) (payload : TransactionPayload) (now : Nat) :
    (run_transaction_with_output env bb account payload now).2.sequence_numbers
      = seqInsert bb.sequence_numbers account.addr
          ((seqGet bb.sequence_numbers account.addr).getD 0 + 1) := rfl

/-- Iterated submissions add the list length to the (default-0) counter. -/
theorem run_transactions_counter (env : Env σ) (account : Account) :
    ∀ (l : List (TransactionPayload × Nat)) (bb : AptosBB σ),
      (seqGet (run_transactions env account bb l).sequence_numbers
          account.addr).getD 0
        = (seqGet bb.sequence_numbers account.addr).getD 0 + l.length
  | [], bb => by simp [run_transactions]
  | (p, t) :: rest, bb => by
      rw [run_transactions]
      rw [run_transactions_counter env account rest]
      rw [run_transaction_with_output_seq, seqGet_seqInsert_self]
      simp [Option.getD]
      omega

/-- Claim C1: the Sequence Ledger counter for an address starts at 0 the
first time the address is used (the lookup defaults to 0), every
run_transaction / run_transaction_with_output call stores exactly
old-counter-plus-one back regardless of the execution outcome (the
engine `env` is universally quantified, so the update is the same for
every outcome), and after N submissions from a previously unseen address
the stored counter equals N. -/
theorem sequence_counter_tracks_submissions (env : Env σ)
    (bb bb2 : AptosBB σ) (account : Account)
    (payload : TransactionPayload) (now : Nat)
    (l : List (TransactionPayload × Nat))
    (h : seqGet bb.sequence_numbers account.addr = none) :
    seqGet (run_transaction_with_output env bb2 account payload now).2.sequence_numbers
        account.addr
      = some ((seqGet bb2.sequence_numbers account.addr).getD 0 + 1)
    ∧ seqGet (run_transaction env bb2 account payload now).2.sequence_numbers
        account.addr
      = some ((seqGet bb2.sequence_numbers account.addr).getD 0 + 1)
    ∧ (seqGet (run_transactions env account bb l).sequence_numbers
          account.addr).getD 0 = l.length := by
  refine ⟨?_, ?_, ?_⟩
  · rw [run_transaction_with_output_seq, seqGet_seqInsert_self]
  · show seqGet (run_transaction_with_output env bb2 account payload now).2.sequence_numbers
        account.addr = _
    rw [run_transaction_with_output_seq, seqGet_seqInsert_self]
  · rw [run_transactions_counter env account l bb, h]
    simp [Option.getD]

/-- Claim C2: whenever the package build fails, publish_package yields the
synthetic Keep(MiscellaneousError(Some(ABORTED))) status as an ordinary
outcome value (the `some` of the result: no panic, no propagated error),
with the harness state returned unchanged. -/
theorem publish_build_failure_yields_kept_misc_error (env : Env σ)
    (bb : AptosBB σ) (account : Account) (path : String) (now : Nat)
    (e : String) (h : env.buildPackage path = .error e) :
    publish_package env bb account path now
      = some (TransactionStatus.Keep
          (ExecutionStatus.MiscellaneousError (some ABORTED)), bb) := by
  simp [publish_package, h]

/-- Claim C3: read_aptos_balance consults only the single fungible-store
resolution scheme: when that resolution fails it returns 0 (so an address
with no asset store reads as 0, indistinguishable from a true zero
balance), and when it succeeds it returns the resolved balance. -/
theorem read_aptos_balance_single_scheme (env : Env σ) (bb : AptosBB σ)
    (addr : Addr) (b : Nat) :
    (read_apt_fungible_store_internal env bb addr = none →
        read_aptos_balance env bb addr = 0)
    ∧ (read_apt_fungible_store_internal env bb addr = some b →
        read_aptos_balance env bb addr = b) := by
  constructor
  · intro h
    simp [read_aptos_balance, h]
  · intro h
    simp [read_aptos_balance, h]

/-- Claim C4: exists_resource reports true exactly when at least one of
the two key-derivation schemes (resource-store state key, or
access-path-derived key) resolves a stored value. -/
theorem exists_resource_iff_either_scheme (env : Env σ) (bb : AptosBB σ)
    (addr : Addr) (struct_tag : StructTag) :
    exists_resource env bb addr struct_tag = true ↔
      (scheme_resource_key_resolves env bb addr struct_tag = true
        ∨ exists_resource_access_path env bb addr struct_tag = true) := by
  unfold exists_resource scheme_resource_key_resolves
  cases h : env.stateKeyResource addr struct_tag with
  | ok state_key =>
      cases h2 : env.readStateValue bb.executor state_key with
      | none => simp
      | some v => simp
  | error e => simp

/-- Claim C5: the transaction run_transaction_with_output submits to the
engine is build_signed_transaction at the current counter, whose expiry is
wall-clock now plus 300 seconds (strictly above the engine's virtual clock
whenever that clock does not run ahead of the wall clock), whose gas
budget (2000000 units) and unit price (100) are fixed constants, and whose
chain id is the harness's pinned chain id. -/
theorem submitted_transaction_policy (env : Env σ) (bb : AptosBB σ)
    (account : Account) (payload : TransactionPayload) (now : Nat)
    (h : env.blockTime bb.executor ≤ now) :
    (run_transaction_with_output env bb account payload now).1
      = ((env.executeAndApply bb.executor
            (build_signed_transaction bb account payload
              ((seqGet bb.sequence_numbers account.addr).getD 0) now)).2.status,
         (env.executeAndApply bb.executor
            (build_signed_transaction bb account payload
              ((seqGet bb.sequence_numbers account.addr).getD 0) now)).2)
    ∧ (build_signed_transaction bb account payload
        ((seqGet bb.sequence_numbers account.addr).getD 0) now).expiration_timestamp_secs
      = now + 300
    ∧ (build_signed_transaction bb account payload
        ((seqGet bb.sequence_numbers account.addr).getD 0) now).max_gas_amount
      = 2000000
    ∧ (build_signed_transaction bb account payload
        ((seqGet bb.sequence_numbers account.addr).getD 0) now).gas_unit_price
      = 100
    ∧ (build_signed_transaction bb account payload
        ((seqGet bb.sequence_numbers account.addr).getD 0) now).chain_id
      = bb.chain_id
    ∧ env.blockTime bb.executor
      < (build_signed_transaction bb account payload
          ((seqGet bb.sequence_numbers account.addr).getD 0) now).expiration_timestamp_secs := by
  refine ⟨rfl, rfl, rfl, rfl, rfl, ?_⟩
  show env.blockTime bb.executor < now + 300
  omega

/-- Claim C6: when both the module name and the function name are
syntactically valid identifiers, both Identifier constructions in
run_entry_function succeed and the call returns an outcome (the unwrap
panic path, modelled by `none`, is not reached). -/
theorem run_entry_function_valid_identifiers_no_panic (env : Env σ)
    (bb : AptosBB σ) (account : Account) (module : Addr)
    (module_name : String) (function : String) (ty_args : List TypeTag)
    (args : List Bytes) (now : Nat)
    (h1 : isValidIdentifier module_name = true)
    (h2 : isValidIdentifier function = true) :
    (run_entry_function env bb account module module_name function
        ty_args args now).isSome = true := by
  simp [run_entry_function, Identifier.new, h1, h2]

/-- Claim C7: execute_view_function maps a parse failure of the
fully-qualified function id to a descriptive error value, returns the raw
result byte-strings when parsing and the engine's view execution succeed,
and maps an engine-reported execution failure to a descriptive error
value; every case yields a value of the result type, never a panic. -/
theorem execute_view_function_outcomes (env : Env σ) (bb : AptosBB σ)
    (module : Addr) (module_name : String) (function : String)
    (ty_args : List TypeTag) (args : List Bytes) (e1 : String)
    (member_id : MemberId) (results : List Bytes) (e2 : String) :
    (env.parseMemberId (format_function_id module module_name function)
        = .error e1 →
      execute_view_function env bb module module_name function ty_args args
        = .error ("Failed to parse function ID: " ++ e1))
    ∧ (env.parseMemberId (format_function_id module module_name function)
        = .ok member_id →
      env.executeViewFunction bb.executor member_id ty_args args
        = .ok results →
      execute_view_function env bb module module_name function ty_args args
        = .ok results)
    ∧ (env.parseMemberId (format_function_id module module_name function)
        = .ok member_id →
      env.executeViewFunction bb.executor member_id ty_args args
        = .error e2 →
      execute_view_function env bb module module_name function ty_args args
        = .error ("View function execution failed: " ++ e2)) := by
  refine ⟨?_, ?_, ?_⟩
  · intro h
    simp [execute_view_function, h]
  · intro h h2
    simp [execute_view_function, h, h2]
  · intro h h2
    simp [execute_view_function, h, h2]

/-- Claim C8: new_account seeds the ledger entry for the created account's
address with 0 unconditionally, and new_account_at does so whenever the
follow-up account-resource verification (against the post-creation engine
state) succeeds — in both cases the fresh 0 entry shadows any earlier
entry for that address, the prior harness state `bb` being arbitrary. -/
theorem account_creation_resets_counter (env : Env σ) (bb : AptosBB σ)
    (fresh_addr addr : Addr) (r : AccountResource)
    (h : read_account_resource_at_address env
        { bb with executor := (env.newAccountData bb.executor addr).1 } addr
      = some r) :
    seqGet (new_account env bb fresh_addr).2.sequence_numbers
        (new_account env bb fresh_addr).1.addr = some 0
    ∧ seqGet (new_account_at env bb addr).2.sequence_numbers addr
      = some 0 := by
  constructor
  · show seqGet (seqInsert bb.sequence_numbers
        (env.newAccountData bb.executor fresh_addr).2.addr 0)
        (env.newAccountData bb.executor fresh_addr).2.addr = some 0
    exact seqGet_seqInsert_self _ _ _
  · simp only [new_account_at]
    rw [h]
    exact seqGet_seqInsert_self _ _ _

/-- Claim C9: when the package build fails, publish_package returns
without constructing or submitting any transaction: the sequence ledger
and the engine state of the returned harness are those it was called
with, so in particular the sender's counter is unchanged. -/
theorem publish_build_failure_leaves_state_unchanged (env : Env σ)
    (bb : AptosBB σ) (account : Account) (path : String) (now : Nat)
    (e : String) (h : env.buildPackage path = .error e) :
    (publish_package env bb account path now).map
        (fun r => r.2.sequence_numbers) = some bb.sequence_numbers
    ∧ (publish_package env bb account path now).map (fun r => r.2.executor)
      = some bb.executor
    ∧ (publish_package env bb account path now).map
        (fun r => seqGet r.2.sequence_numbers account.addr)
      = some (seqGet bb.sequence_numbers account.addr) := by
  refine ⟨?_, ?_, ?_⟩ <;> simp [publish_package, h]

/-- Claim C10: get_apt_balance returns Some b exactly when
read_aptos_balance resolves to b and b is positive; when no fungible
store exists, and equally when the store exists with balance exactly 0,
it returns None — the two cases are indistinguishable to the caller. -/
theorem get_apt_balance_characterisation (env : Env σ) (bb : AptosBB σ)
    (address : Addr) (b : Nat) :
    (get_apt_balance env bb address = some b ↔
      (read_aptos_balance env bb address = b ∧ 0 < b))
    ∧ (read_apt_fungible_store_internal env bb address = none →
        get_apt_balance env bb address = none)
    ∧ (read_apt_fungible_store_internal env bb address = some 0 →
        get_apt_balance env bb address = none) := by
  refine ⟨?_, ?_, ?_⟩
  · unfold get_apt_balance
    by_cases hb : read_aptos_balance env bb address > 0
    · simp only [hb, if_pos]
      constructor
      · intro hsome
        cases hsome
        exact ⟨rfl, hb⟩
      · rintro ⟨hb2, _⟩
        rw [hb2]
    · simp only [hb, if_neg, if_false]
      constructor
      · intro hnone
        cases hnone
      · rintro ⟨hb2, hpos⟩
        omega
  · intro h
    simp [get_apt_balance, read_aptos_balance, h]
  · intro h
    simp [get_apt_balance, read_aptos_balance, h]

/-- A concrete publish payload used to exercise the theorems on concrete
inputs. -/
def pay0 : TransactionPayload := TransactionPayload.CodePublish [] []

/-- A concrete environment over the trivial engine state, exercising both
resolution successes and failures. -/
def testEnv : Env Unit :=
  { executeAndApply := fun _ txn =>
      ((), { status := TransactionStatus.Keep ExecutionStatus.Success,
             gas_used := txn.max_gas_amount })
    readStateValue := fun _ k => if k = 7 then some [1] else none
    readAccountResource := fun _ a => if a = 5 then some 0 else none
    readResourceFromGroup := fun _ a _ =>
      if a = 100 then some ⟨0⟩ else if a = 101 then some ⟨42⟩ else none
    newAccountData := fun _ a => ((), ⟨a⟩)
    blockTime := fun _ => 1000
    stateKeyResource := fun a _ => if a = 1 then .ok 7 else .error ()
    resourceAccessPath := fun a t => .ok (a + t)
    bcsToBytes := fun p => [p]
    stateKeyDecode := fun _ => .ok 9
    parseMemberId := fun _ => .ok 1
    executeViewFunction := fun _ mid _ _ =>
      if mid = 1 then .ok [[1, 2]] else .error "engine failure"
    buildPackage := fun _ => .error "build failed"
    primaryAptStore := fun a => a
    objectGroupStructTag := 0 }

/-- testEnv with an identifier parser that always fails. -/
def testEnvErr : Env Unit :=
  { testEnv with parseMemberId := fun _ => .error "bad" }

/-- A fresh harness state: empty ledger. -/
def testBB : AptosBB Unit :=
  { executor := (), sequence_numbers := [], chain_id := 1 }

/-- A harness state with an existing nonzero ledger entry for address 3. -/
def testBB2 : AptosBB Unit :=
  { executor := (), sequence_numbers := [(3, 5)], chain_id := 1 }

/-- Witness for C1 at concrete inputs: address 3 unseen in testBB; one
call from testBB2 bumps the stored counter from 5 to 6; two submissions
from the fresh testBB leave the stored counter at 2. -/
theorem sequence_counter_tracks_submissions_witness :
    seqGet testBB.sequence_numbers 3 = none
    ∧ (seqGet (run_transaction_with_output testEnv testBB2 ⟨3⟩ pay0 10).2.sequence_numbers 3
        = some ((seqGet testBB2.sequence_numbers 3).getD 0 + 1)
      ∧ seqGet (run_transaction testEnv testBB2 ⟨3⟩ pay0 10).2.sequence_numbers 3
        = some ((seqGet testBB2.sequence_numbers 3).getD 0 + 1)
      ∧ (seqGet (run_transactions testEnv ⟨3⟩ testBB
            [(pay0, 10), (pay0, 11)]).sequence_numbers 3).getD 0 = 2) :=
  ⟨rfl, sequence_counter_tracks_submissions testEnv testBB testBB2 ⟨3⟩ pay0 10
    [(pay0, 10), (pay0, 11)] rfl⟩

/-- Witness for C2 at a concrete failing build. -/
theorem publish_build_failure_yields_kept_misc_error_witness :
    testEnv.buildPackage "pkg" = .error "build failed"
    ∧ publish_package testEnv testBB ⟨3⟩ "pkg" 0
      = some (TransactionStatus.Keep
          (ExecutionStatus.MiscellaneousError (some ABORTED)), testBB) :=
  ⟨rfl, publish_build_failure_yields_kept_misc_error testEnv testBB ⟨3⟩
    "pkg" 0 "build failed" rfl⟩

/-- Witness for C3 at a concrete address with no fungible store. -/
theorem read_aptos_balance_single_scheme_witness :
    read_apt_fungible_store_internal testEnv testBB 200 = none
    ∧ read_aptos_balance testEnv testBB 200 = 0 :=
  ⟨rfl, (read_aptos_balance_single_scheme testEnv testBB 200 0).1 rfl⟩

/-- Witness for C5 at a concrete wall-clock reading ahead of the virtual
clock. -/
theorem submitted_transaction_policy_witness :
    testEnv.blockTime testBB.executor ≤ 2000
    ∧ testEnv.blockTime testBB.executor
      < (build_signed_transaction testBB ⟨3⟩ pay0
          ((seqGet testBB.sequence_numbers 3).getD 0) 2000).expiration_timestamp_secs :=
  ⟨by decide,
   (submitted_transaction_policy testEnv testBB ⟨3⟩ pay0 2000 (by decide)).2.2.2.2.2⟩

/-- Witness for C6 at concrete valid identifiers. -/
theorem run_entry_function_valid_identifiers_no_panic_witness :
    isValidIdentifier "coin" = true
    ∧ isValidIdentifier "transfer" = true
    ∧ (run_entry_function testEnv testBB ⟨3⟩ 1 "coin" "transfer" [] [] 0).isSome
      = true :=
  ⟨by decide, by decide,
   run_entry_function_valid_identifiers_no_panic testEnv testBB ⟨3⟩ 1
     "coin" "transfer" [] [] 0 (by decide) (by decide)⟩

/-- Witness for C7: a successful parse-and-execute returning the raw
results, and a failing parse returning the descriptive error. -/
theorem execute_view_function_outcomes_witness :
    execute_view_function testEnv testBB 3 "m" "f" [] [] = .ok [[1, 2]]
    ∧ execute_view_function testEnvErr testBB 3 "m" "f" [] []
      = .error ("Failed to parse function ID: " ++ "bad") :=
  ⟨(execute_view_function_outcomes testEnv testBB 3 "m" "f" [] [] "x" 1
      [[1, 2]] "y").2.1 rfl rfl,
   (execute_view_function_outcomes testEnvErr testBB 3 "m" "f" [] [] "bad" 1
      [[1, 2]] "y").1 rfl⟩

/-- Witness for C8: address 3 holds counter 5 in testBB2 and is reset to 0
by new_account; address 5 passes the verification read and is seeded with
0 by new_account_at. -/
theorem account_creation_resets_counter_witness :
    read_account_resource_at_address testEnv
        { testBB2 with executor := (testEnv.newAccountData testBB2.executor 5).1 } 5
      = some 0
    ∧ (seqGet (new_account testEnv testBB2 3).2.sequence_numbers
          (new_account testEnv testBB2 3).1.addr = some 0
      ∧ seqGet (new_account_at testEnv testBB2 5).2.sequence_numbers 5
        = some 0) :=
  ⟨rfl, account_creation_resets_counter testEnv testBB2 3 5 0 rfl⟩

/-- Witness for C9 at a concrete failing build and a nonempty ledger. -/
theorem publish_build_failure_leaves_state_unchanged_witness :
    testEnv.buildPackage "badpkg" = .error "build failed"
    ∧ ((publish_package testEnv testBB2 ⟨3⟩ "badpkg" 7).map
          (fun r => r.2.sequence_numbers) = some testBB2.sequence_numbers
      ∧ (publish_package testEnv testBB2 ⟨3⟩ "badpkg" 7).map
          (fun r => r.2.executor) = some testBB2.executor
      ∧ (publish_package testEnv testBB2 ⟨3⟩ "badpkg" 7).map
          (fun r => seqGet r.2.sequence_numbers 3)
        = some (seqGet testBB2.sequence_numbers 3)) :=
  ⟨rfl, publish_build_failure_leaves_state_unchanged testEnv testBB2 ⟨3⟩
    "badpkg" 7 "build failed" rfl⟩

/-- Witness for C10 at a concrete address whose store exists with balance
exactly 0. -/
theorem get_apt_balance_characterisation_witness :
    read_apt_fungible_store_internal testEnv testBB 100 = some 0
    ∧ get_apt_balance testEnv testBB 100 = none :=
  ⟨rfl, (get_apt_balance_characterisation testEnv testBB 100 0).2.2 rfl⟩
